import Mathlib

/-!
# Verification of the notebooklm-py source-ingestion and auth core

Shallow embedding of `src/notebooklm/auth.py` and `src/notebooklm/_sources.py`.
Python strings are modelled as Lean `String`s; all character-level operations
(prefix/suffix/substring tests, splitting, stripping, lowering) are defined
here over `List Char` so that every definition is executable and
kernel-reducible. Python dicts keyed by cookie name are modelled as
association lists with last-write-wins insertion. Loosely-typed JSON-ish
reply values are modelled by the inductive `RawReply`.
-/

namespace NotebookLM

/-! ## Character/string primitives (model of the Python `str` operations used) -/

/-- Whitespace characters recognised by Python `str.strip()` (ASCII subset). -/
def isPyWS (c : Char) : Bool :=
  c = ' ' || c = '\t' || c = '\n' || c = '\r' || c = '\x0b' || c = '\x0c'

/-- Model of Python `str.strip()` on a character list. -/
def pyStripL (l : List Char) : List Char :=
  ((l.dropWhile isPyWS).reverse.dropWhile isPyWS).reverse

/-- Model of Python `str.strip()`. -/
def pyStrip (s : String) : String :=
  ⟨pyStripL s.data⟩

/-- ASCII lower-casing of one character, as Python `str.lower()` does on ASCII. -/
def asciiLower (c : Char) : Char :=
  if 'A' ≤ c ∧ c ≤ 'Z' then Char.ofNat (c.toNat + 32) else c

/-- Model of Python `str.lower()` (ASCII). -/
def pyLower (s : String) : String :=
  ⟨s.data.map asciiLower⟩

/-- Boolean list-prefix test. -/
def listIsPrefix : List Char → List Char → Bool
  | [], _ => true
  | _ :: _, [] => false
  | a :: as, b :: bs => if a = b then listIsPrefix as bs else false

/-- Boolean substring test on character lists: does `needle` occur inside `hay`? -/
def listContains (hay needle : List Char) : Bool :=
  match hay with
  | [] => listIsPrefix needle []
  | _ :: t => listIsPrefix needle hay || listContains t needle

/-- Model of the Python `needle in hay` substring test. -/
def strContains (hay needle : String) : Bool :=
  listContains hay.data needle.data

/-- Model of Python `hay.endswith(suffix)` via reversed prefix test. -/
def strEndsWith (hay suffix : String) : Bool :=
  listIsPrefix suffix.data.reverse hay.data.reverse

/-- Model of Python `s.split(sep)` on character lists: splitting the empty
string yields one empty piece, exactly as in Python. -/
def pySplitL (sep : Char) : List Char → List (List Char)
  | [] => [[]]
  | c :: t =>
    let rest := pySplitL sep t
    if c = sep then [] :: rest
    else
      match rest with
      | [] => [[c]]
      | piece :: pieces => (c :: piece) :: pieces

/-- Model of Python `s.split(sep)`. -/
def pySplit (sep : Char) (s : String) : List String :=
  (pySplitL sep s.data).map fun l => ⟨l⟩

/-- Model of Python `s.lstrip("/")`. -/
def lstripSlash (s : String) : String :=
  ⟨s.data.dropWhile (· = '/')⟩

/-! ## RawReply: the loosely-typed nested reply values (`RawReply` of the spec) -/

/-- Untyped reply value returned by the remote-call boundary: a string scalar,
a (possibly nested) sequence, or null. -/
inductive RawReply where
  | str (s : String)
  | list (l : List RawReply)
  | null

/-- Model of `extract_id` in `_sources.py` (`_register_file_source`, lines
267-281): a string is returned as-is; a non-empty list recurses into its
first element; everything else yields `none`. -/
def extract_id : RawReply → Option String
  | .str s => some s
  | .list (x :: _) => extract_id x
  | .list [] => none
  | .null => none

/-! ## Cookie filtering (`auth.py`) -/

/-- One record of the `cookies` array in the Playwright storage-state file. -/
structure StorageCookie where
  domain : String
  name : String
  value : String
  deriving DecidableEq

/-- The `ALLOWED_COOKIE_DOMAINS` constant of `auth.py` (lines 43-47). -/
def ALLOWED_COOKIE_DOMAINS : List String :=
  [".google.com", "notebooklm.google.com", ".googleusercontent.com"]

/-- The `allowed_suffixes` tuple local to `_is_allowed_cookie_domain`
(`auth.py`, lines 252-256). -/
def ALLOWED_DOWNLOAD_SUFFIXES : List String :=
  [".google.com", ".googleusercontent.com", ".usercontent.google.com"]

/-- Failure modes of the auth phase, one constructor per distinct `ValueError`
family raised in `auth.py` (the spec's `MissingCookieError`,
`AuthExpiredError`, `TokenExtractionError`). -/
inductive AuthFailure where
  | missingCookie
  | authExpired
  | tokenExtraction
  deriving DecidableEq

/-- Key-membership test for an association-list dict. -/
def hasKey (d : List (String × String)) (k : String) : Bool :=
  d.any fun p => p.1 == k

/-- Model of Python `dict[name] = value`: last write wins. (Python keeps the
first-insertion position of an overwritten key; this model moves it to the
end. No property proved here depends on entry order.) -/
def dictInsert (d : List (String × String)) (k v : String) : List (String × String) :=
  (d.filter fun p => !(p.1 == k)) ++ [(k, v)]

/-- Model of `extract_cookies_from_storage` (`auth.py`, lines 105-137): keep
cookies whose domain is *exactly* in `ALLOWED_COOKIE_DOMAINS` and whose name
is truthy, building a name→value dict. This is the loop body of
`extract_cookies_from_storage`. -/
def storageCookieStep (d : List (String × String)) (c : StorageCookie) :
    List (String × String) :=
  if c.domain ∈ ALLOWED_COOKIE_DOMAINS then
    if c.name ≠ "" then dictInsert d c.name c.value else d
  else d

/-- Model of `extract_cookies_from_storage` (`auth.py`, lines 105-137): fold
`storageCookieStep` over the storage cookies, then fail with the
missing-cookie `ValueError` unless the required `SID` cookie is among the
kept names. -/
def extract_cookies_from_storage (storageCookies : List StorageCookie) :
    Except AuthFailure (List (String × String)) :=
  let cookies := storageCookies.foldl storageCookieStep []
  if hasKey cookies "SID" then .ok cookies else .error .missingCookie

/-- Model of `_is_allowed_cookie_domain` (`auth.py`, lines 233-263): exact
match against `ALLOWED_COOKIE_DOMAINS`, else equality with or
`str.endswith` match against each download suffix. -/
def _is_allowed_cookie_domain (domain : String) : Bool :=
  if domain ∈ ALLOWED_COOKIE_DOMAINS then true
  else ALLOWED_DOWNLOAD_SUFFIXES.any fun suffix =>
    domain == suffix || strEndsWith domain suffix

/-- Model of `load_httpx_cookies` (`auth.py`, lines 266-314) after the storage
file has been read: keep cookies with an allowed download domain and truthy
name and value (domain metadata preserved); fail with the missing-cookie
`ValueError` unless `SID` is among the kept names. (The `httpx.Cookies` jar
is modelled as the kept list itself.) -/
def load_httpx_cookies (storageCookies : List StorageCookie) :
    Except AuthFailure (List StorageCookie) :=
  let kept := storageCookies.filter fun c =>
    _is_allowed_cookie_domain c.domain && !(c.name == "") && !(c.value == "")
  if kept.any (fun c => c.name == "SID") then .ok kept else .error .missingCookie

/-! ## Token extraction (`auth.py`) -/

/-- The external login domain tested for in `auth.py`. -/
def LOGIN_DOMAIN : String := "accounts.google.com"

/-- Attempt to match the regex `"KEY"\s*:\s*"([^"]+)"` at the very start of
`l`: the quoted key, optional whitespace, a colon, optional whitespace, then
a quoted non-empty capture of non-quote characters. -/
def matchTokenAt (key : List Char) (l : List Char) : Option (List Char) :=
  if listIsPrefix ('"' :: (key ++ ['"'])) l then
    let rest := (l.drop (key.length + 2)).dropWhile isPyWS
    match rest with
    | ':' :: rest2 =>
      match rest2.dropWhile isPyWS with
      | '"' :: rest4 =>
        let capture := rest4.takeWhile (· ≠ '"')
        match rest4.dropWhile (· ≠ '"') with
        | '"' :: _ => if capture = [] then none else some capture
        | _ => none
      | _ => none
    | _ => none
  else none

/-- Leftmost match of the token pattern, as `re.search` finds it. -/
def findTokenL (key : List Char) : List Char → Option (List Char)
  | [] => none
  | l@(_ :: t) =>
    match matchTokenAt key l with
    | some v => some v
    | none => findTokenL key t

/-- Model of `re.search(r'"KEY"\s*:\s*"([^"]+)"', html)` returning the
captured group. -/
def findToken (key html : String) : Option String :=
  (findTokenL key.data html.data).map fun l => ⟨l⟩

/-- Common body of `extract_csrf_from_html` and `extract_session_id_from_html`
(`auth.py`, lines 140-202): return the captured token, else raise the
auth-expired `ValueError` when `accounts.google.com` occurs in the final URL
or in the HTML, else raise the page-structure-changed `ValueError`. -/
def extract_token_from_html (key html finalUrl : String) : Except AuthFailure String :=
  match findToken key html with
  | some tok => .ok tok
  | none =>
    if strContains finalUrl LOGIN_DOMAIN || strContains html LOGIN_DOMAIN then
      .error .authExpired
    else
      .error .tokenExtraction

/-- Model of `extract_csrf_from_html` (`auth.py`, lines 140-170). -/
def extract_csrf_from_html (html finalUrl : String) : Except AuthFailure String :=
  extract_token_from_html "SNlM0e" html finalUrl

/-- Model of `extract_session_id_from_html` (`auth.py`, lines 173-202). -/
def extract_session_id_from_html (html finalUrl : String) : Except AuthFailure String :=
  extract_token_from_html "FdrFJe" html finalUrl

/-- Model of `fetch_tokens` (`auth.py`, lines 317-356) after the HTTP layer:
given the final URL after redirects and the response body of a successful
GET, fail with the auth-expired `ValueError` if the final URL contains
`accounts.google.com`, else run the two extractors in order. -/
def fetch_tokens (finalUrl html : String) : Except AuthFailure (String × String) :=
  if strContains finalUrl LOGIN_DOMAIN then .error .authExpired
  else do
    let csrf ← extract_csrf_from_html html finalUrl
    let sessionId ← extract_session_id_from_html html finalUrl
    return (csrf, sessionId)

/-! ## URL parsing model (`urllib.parse`, external stdlib)

`urlparse` and `parse_qs` are Python standard-library collaborators, modelled
here from their documented behaviour for the URL shapes this client handles:
optional `scheme:`, optional `//netloc`, path, `?query`, `#fragment`;
`hostname` is the netloc after any userinfo and before any port, lowercased.
Percent/plus decoding in `parse_qs` is not modelled (no claim involves
escaped query values). -/

/-- Hostname, path and query of a parsed URL (the fields of `ParseResult`
this code reads). -/
structure ParsedUrl where
  hostname : String
  path : String
  query : String
  deriving DecidableEq

/-- Scheme characters accepted by `urlparse` (letters, digits, `+`, `-`, `.`). -/
def isSchemeChar (c : Char) : Bool :=
  c.isAlpha || c.isDigit || c = '+' || c = '-' || c = '.'

/-- Strip a leading `scheme:` when the part before the first colon is a
non-empty run of scheme characters starting with a letter. -/
def splitScheme (l : List Char) : List Char :=
  let pre := l.takeWhile (· ≠ ':')
  match l.dropWhile (· ≠ ':') with
  | ':' :: rest =>
    match pre with
    | [] => l
    | c :: _ => if c.isAlpha && pre.all isSchemeChar then rest else l
  | _ => l

/-- The part of a netloc after the last `@` (drops userinfo). -/
def afterLastAt (l : List Char) : List Char :=
  (pySplitL '@' l).getLastD []

/-- Model of `urllib.parse.urlparse` restricted to the fields used. -/
def urlparseModel (url : String) : ParsedUrl :=
  let l := url.data.takeWhile (· ≠ '#')
  let rest := splitScheme l
  if listIsPrefix ['/', '/'] rest then
    let netloc := (rest.drop 2).takeWhile fun c => !(c = '/' || c = '?')
    let after := (rest.drop 2).drop netloc.length
    let path := after.takeWhile (· ≠ '?')
    let query := match after.dropWhile (· ≠ '?') with
      | _ :: t => t
      | [] => []
    let host := ((afterLastAt netloc).takeWhile (· ≠ ':')).map asciiLower
    ⟨⟨host⟩, ⟨path⟩, ⟨query⟩⟩
  else
    let path := rest.takeWhile (· ≠ '?')
    let query := match rest.dropWhile (· ≠ '?') with
      | _ :: t => t
      | [] => []
    ⟨"", ⟨path⟩, ⟨query⟩⟩

/-- Model of `parse_qs(query).get("v", [])`: pieces split on `&`, empty pieces
and pairs without `=` or with an empty value skipped (default
`keep_blank_values=False`), values for key `v` collected in order. -/
def pyParseQsV (query : String) : List String :=
  (pySplitL '&' query.data).filterMap fun piece =>
    if piece = [] then none
    else
      let name := piece.takeWhile (· ≠ '=')
      match piece.dropWhile (· ≠ '=') with
      | '=' :: value =>
        if name = "v".data ∧ value ≠ [] then some ⟨value⟩ else none
      | _ => none

/-! ## Source classification (`_sources.py`) -/

/-- The `youtube_domains` set in `_parse_youtube_url` (`_sources.py`,
lines 148-154). -/
def YOUTUBE_DOMAINS : List String :=
  ["youtube.com", "www.youtube.com", "m.youtube.com", "music.youtube.com", "youtu.be"]

/-- The `path_prefixes` tuple in `_extract_video_id_from_parsed_url`
(`_sources.py`, line 188). -/
def PATH_PREFIXES : List (List Char) :=
  ["shorts".data, "embed".data, "live".data, "v".data]

/-- Model of `_is_valid_video_id` (`_sources.py`, lines 203-215): non-empty
and matching `^[a-zA-Z0-9_-]+$` (full anchored match; the `$`-before-final-
newline regex quirk is unreachable because every caller strips first). -/
def _is_valid_video_id (videoId : String) : Bool :=
  !videoId.data.isEmpty && videoId.data.all fun c =>
    c.isAlpha || c.isDigit || c = '_' || c = '-'

/-- Model of `_extract_video_id_from_parsed_url` (`_sources.py`,
lines 170-201): `youtu.be` takes the first path segment; path-prefix hosts
take the segment after a recognised prefix; otherwise the `v` query
parameter. Each candidate is stripped; `None` when nothing matches. -/
def _extract_video_id_from_parsed_url (parsed : ParsedUrl) (hostname : String) :
    Option String :=
  if hostname = "youtu.be" then
    match (lstripSlash parsed.path).data with
    | [] => none
    | l => some ⟨pyStripL (l.takeWhile (· ≠ '/'))⟩
  else
    let fromQuery :=
      if parsed.query ≠ "" then
        match pyParseQsV parsed.query with
        | v :: _ => if v ≠ "" then some (pyStrip v) else none
        | [] => none
      else none
    match pySplitL '/' (lstripSlash parsed.path).data with
    | s0 :: s1 :: _ =>
      if s0.map asciiLower ∈ PATH_PREFIXES then some ⟨pyStripL s1⟩ else fromQuery
    | _ => fromQuery

/-- Model of `_parse_youtube_url` (`_sources.py`, lines 124-168): strip the
input, parse it as a URL, require a known video hostname, extract and
validate the candidate identifier; `None` on any failure (the Python
`except` clause that also returns `None` is subsumed by totality). -/
def _parse_youtube_url (url : String) : Option String :=
  let parsed := urlparseModel (pyStrip url)
  let hostname := pyLower parsed.hostname
  if hostname ∈ YOUTUBE_DOMAINS then
    match _extract_video_id_from_parsed_url parsed hostname with
    | some vid => if vid ≠ "" ∧ _is_valid_video_id vid then some vid else none
    | none => none
  else none

/-- The spec's `SourceKind` closed variant, as decided by the dispatch at the
top of `SourcesAPI.add` (`_sources.py`, lines 42-59). -/
inductive SourceKind where
  | localFile (path : String)
  | videoReference (rawUrl videoId : String)
  | genericUrl (rawUrl : String)
  deriving DecidableEq

/-- The classification performed by `SourcesAPI.add`: local file if the path
exists as a regular file (the filesystem check is a Boolean input here),
else video reference when `_parse_youtube_url` matches, else generic URL. -/
def classify (fsIsFile : Bool) (raw : String) : SourceKind :=
  if fsIsFile then .localFile raw
  else
    match _parse_youtube_url raw with
    | some vid => .videoReference raw vid
    | none => .genericUrl raw

/-! ## Resumable upload and source add/delete (`_sources.py`)

The remote-call boundary (`rpc_call`) and the two upload HTTP endpoints are
external collaborators; their outcomes are inputs of the model
(`SourcesEnv`). Every network interaction the code performs is recorded in
an explicit trace of `Call`s, so call counts and ordering are provable. -/

/-- One network interaction performed by `SourcesAPI`. -/
inductive Call where
  | rpcAddSourceFile (filename : String)
  | rpcAddSourceVideo (url : String)
  | rpcAddSourceUrl (url : String)
  | rpcDeleteSource (notebookId sourceId : String)
  | httpNegotiate (filename : String) (fileSize : Nat) (sourceId : String)
  | httpTransfer (body : List (List Nat))
  deriving DecidableEq

/-- Errors surfacing from `SourcesAPI` operations: `sourceAddError` is the
`SourceAddError(source, message=...)` the code raises itself; `remote`
is any exception of the remote-call boundary or the HTTP layer, which the
code lets propagate unwrapped; `sourceDeleteError` is the spec's
`SourceDeleteError`, present in this model's error universe so that its
absence from the code's behaviour can be stated — no definition below ever
constructs it. -/
inductive SrcError where
  | sourceAddError (source msg : String)
  | remote (e : String)
  | sourceDeleteError (msg : String)
  deriving DecidableEq

/-- Outcomes of the external collaborators for one `add`/`delete` run:
each `Except String _` is "the call raised" vs. its result;
`negotiateResp = .ok none` is an HTTP success whose `x-goog-upload-url`
header is absent. -/
structure SourcesEnv where
  fileReply : Except String RawReply
  videoReply : Except String RawReply
  urlReply : Except String RawReply
  deleteReply : Except String Unit
  negotiateResp : Except String (Option String)
  transferResp : Except String Unit

/-- The chunk size of `_upload_file_streaming` (`f.read(65536)`). -/
def CHUNK_SIZE : Nat := 65536

/-- Model of the `while chunk := f.read(c)` loop: the file's bytes cut into
chunks of `c` bytes (last one shorter); reading with `c = 0` yields an empty
chunk immediately, ending the loop with no chunks. -/
def chunksOf (c : Nat) : List α → List (List α)
  | [] => []
  | x :: t => if _h : c = 0 then [] else (x :: t).take c :: chunksOf c ((x :: t).drop c)
termination_by l => l.length
decreasing_by
  simp only [List.length_drop]
  simp only [List.length_cons]
  omega

/-- The reply unwrapping inside `_register_file_source` (`_sources.py`,
lines 265-280): the reply must be truthy and a list (hence non-empty), and
`extract_id` must yield a truthy (non-empty) string. -/
def registerSourceId (reply : RawReply) : Option String :=
  match reply with
  | .list (x :: xs) =>
    match extract_id (.list (x :: xs)) with
    | some sid => if sid ≠ "" then some sid else none
    | none => none
  | _ => none

/-- Model of `_register_file_source` (`_sources.py`, lines 248-281): one
`ADD_SOURCE_FILE` remote call; a raised remote error propagates; an
un-unwrappable reply raises `SourceAddError`. -/
def _register_file_source (env : SourcesEnv) (filename : String) :
    List Call × Except SrcError String :=
  ([.rpcAddSourceFile filename],
   match env.fileReply with
   | .error e => .error (.remote e)
   | .ok reply =>
     match registerSourceId reply with
     | some sid => .ok sid
     | none => .error (.sourceAddError filename
         "Failed to get SOURCE_ID from registration response"))

/-- Model of `_start_resumable_upload` (`_sources.py`, lines 283-325): one
POST to the fixed upload endpoint; an HTTP error propagates; a missing
`x-goog-upload-url` header raises `SourceAddError`; else the session URL. -/
def _start_resumable_upload (env : SourcesEnv) (filename : String)
    (fileSize : Nat) (sourceId : String) : List Call × Except SrcError String :=
  ([.httpNegotiate filename fileSize sourceId],
   match env.negotiateResp with
   | .error e => .error (.remote e)
   | .ok none => .error (.sourceAddError filename
       "Failed to get upload URL from response headers")
   | .ok (some uploadUrl) => .ok uploadUrl)

/-- Model of `_upload_file_streaming` (`_sources.py`, lines 327-356): one
POST to the negotiated URL whose body is the file streamed in 64 KiB
chunks; an HTTP error propagates. -/
def _upload_file_streaming (env : SourcesEnv) (fileBytes : List Nat) :
    List Call × Except SrcError Unit :=
  ([.httpTransfer (chunksOf CHUNK_SIZE fileBytes)],
   match env.transferResp with
   | .error e => .error (.remote e)
   | .ok _ => .ok ())

/-- Model of `_add_file_source` (`_sources.py`, lines 93-122): register, then
negotiate with the file's byte count, then stream; the first failure aborts
the remaining phases; on success the phase-1 `source_id` is returned. -/
def _add_file_source (env : SourcesEnv) (filename : String)
    (fileBytes : List Nat) : List Call × Except SrcError String :=
  let r1 := _register_file_source env filename
  match r1.2 with
  | .error e => (r1.1, .error e)
  | .ok sourceId =>
    let r2 := _start_resumable_upload env filename fileBytes.length sourceId
    match r2.2 with
    | .error e => (r1.1 ++ r2.1, .error e)
    | .ok _ =>
      let r3 := _upload_file_streaming env fileBytes
      match r3.2 with
      | .error e => (r1.1 ++ r2.1 ++ r3.1, .error e)
      | .ok _ => (r1.1 ++ r2.1 ++ r3.1, .ok sourceId)

/-- Truthiness-and-type test `result and isinstance(result, list)` /
its negation `not result or not isinstance(result, list)`: only a non-empty
list passes. -/
def replyTruthyList : RawReply → Bool
  | .list (_ :: _) => true
  | _ => false

/-- Model of `SourcesAPI.add` (`_sources.py`, lines 24-63): a local file goes
through the three-phase upload; a recognised video URL issues one
`ADD_SOURCE` call and returns the placeholder `"youtube_source_added"`
whatever the reply looks like; anything else issues one `ADD_SOURCE` call
and raises `SourceAddError` unless the reply is a non-empty list. The file
branch takes the file's name and bytes as inputs (`path.name`,
`stat().st_size` and the read contents in the code). -/
def sourcesAdd (env : SourcesEnv) (fsIsFile : Bool) (source : String)
    (fileBytes : List Nat) : List Call × Except SrcError String :=
  if fsIsFile then _add_file_source env source fileBytes
  else
    match _parse_youtube_url source with
    | some _ =>
      ([.rpcAddSourceVideo source],
       match env.videoReply with
       | .error e => .error (.remote e)
       | .ok _ => .ok "youtube_source_added")
    | none =>
      ([.rpcAddSourceUrl source],
       match env.urlReply with
       | .error e => .error (.remote e)
       | .ok reply =>
         if replyTruthyList reply then .ok "url_source_added"
         else .error (.sourceAddError source "Failed to add URL source"))

/-- Model of `SourcesAPI.delete` (`_sources.py`, lines 80-91): a single
`DELETE_SOURCE` remote call, its result discarded; a raised remote error
propagates unwrapped. -/
def sourcesDelete (env : SourcesEnv) (notebookId sourceId : String) :
    List Call × Except SrcError Unit :=
  ([.rpcDeleteSource notebookId sourceId],
   match env.deleteReply with
   | .error e => .error (.remote e)
   | .ok _ => .ok ())

/-- Is the outcome the spec's `SourceDeleteError`? -/
def isSourceDeleteError : Except SrcError Unit → Bool
  | .error (.sourceDeleteError _) => true
  | _ => false

/-! ## Concrete environments used by witnesses and counterexamples -/

/-- A collaborator environment in which every remote interaction succeeds
with a benign reply. -/
def baseEnv : SourcesEnv :=
  { fileReply := .ok .null
    videoReply := .ok .null
    urlReply := .ok .null
    deleteReply := .ok ()
    negotiateResp := .ok none
    transferResp := .ok () }

/-- Environment for a fully successful three-phase file upload. -/
def envHappyUpload : SourcesEnv :=
  { baseEnv with
    fileReply := .ok (.list [.list [.str "src-42"]])
    negotiateResp := .ok (some "https://upload.invalid/session-1") }

/-- Environment in which the video add-source call returns an empty list. -/
def envVideoEmptyReply : SourcesEnv :=
  { baseEnv with videoReply := .ok (.list []) }

/-- Environment in which the URL add-source call returns a non-empty list. -/
def envUrlOkReply : SourcesEnv :=
  { baseEnv with urlReply := .ok (.list [.str "added"]) }

/-- Environment in which the delete remote call raises. -/
def envDeleteFail : SourcesEnv :=
  { baseEnv with deleteReply := .error "rpc transport failure" }

/-! ## Helper lemmas -/

theorem listIsPrefix_iff : ∀ (a b : List Char), listIsPrefix a b = true ↔ a <+: b
  | [], b => by simp [listIsPrefix]
  | _ :: _, [] => by simp [listIsPrefix]
  | a :: as, b :: bs => by
    rw [listIsPrefix, List.cons_prefix_cons]
    by_cases h : a = b
    · simp [h, listIsPrefix_iff as bs]
    · simp [h]

theorem strEndsWith_iff (s suffix : String) :
    strEndsWith s suffix = true ↔ ∃ p : String, s = p ++ suffix := by
  rw [strEndsWith, listIsPrefix_iff, List.reverse_prefix]
  constructor
  · rintro ⟨t, ht⟩
    refine ⟨⟨t⟩, ?_⟩
    apply String.ext
    rw [String.data_append]
    exact ht.symm
  · rintro ⟨p, rfl⟩
    exact ⟨p.data, (String.data_append p suffix).symm⟩

theorem hasKey_iff (d : List (String × String)) (k : String) :
    hasKey d k = true ↔ ∃ p ∈ d, p.1 = k := by
  simp [hasKey, List.any_eq_true]

theorem hasKey_dictInsert (d : List (String × String)) (k v k' : String) :
    hasKey (dictInsert d k v) k' = true ↔ k' = k ∨ hasKey d k' = true := by
  simp only [dictInsert, hasKey_iff, List.mem_append, List.mem_filter,
    List.mem_singleton]
  constructor
  · rintro ⟨p, hp | hp, hpk⟩
    · exact Or.inr ⟨p, hp.1, hpk⟩
    · subst hp; exact Or.inl hpk.symm
  · rintro (h | ⟨p, hp, hpk⟩)
    · exact ⟨(k, v), Or.inr rfl, h.symm⟩
    · by_cases hk : p.1 = k
      · exact ⟨(k, v), Or.inr rfl, hk.symm.trans hpk⟩
      · exact ⟨p, Or.inl ⟨hp, by simp [hk]⟩, hpk⟩

theorem hasKey_storageFold : ∀ (L : List StorageCookie) (d : List (String × String)) (k : String),
    hasKey (L.foldl storageCookieStep d) k = true ↔
      hasKey d k = true ∨
        ∃ c ∈ L, c.domain ∈ ALLOWED_COOKIE_DOMAINS ∧ c.name ≠ "" ∧ c.name = k
  | [], d, k => by simp
  | c :: L, d, k => by
    rw [List.foldl_cons, hasKey_storageFold L (storageCookieStep d c) k]
    unfold storageCookieStep
    by_cases hdom : c.domain ∈ ALLOWED_COOKIE_DOMAINS
    · by_cases hname : c.name ≠ ""
      · rw [if_pos hdom, if_pos hname, hasKey_dictInsert]
        constructor
        · rintro ((rfl | h) | h)
          · exact Or.inr ⟨c, List.mem_cons_self .., hdom, hname, rfl⟩
          · exact Or.inl h
          · obtain ⟨c', hc', h'⟩ := h
            exact Or.inr ⟨c', List.mem_cons_of_mem _ hc', h'⟩
        · rintro (h | ⟨c', hc', hd', hn', hk'⟩)
          · exact Or.inl (Or.inr h)
          · rcases List.mem_cons.mp hc' with rfl | hc'
            · exact Or.inl (Or.inl hk'.symm)
            · exact Or.inr ⟨c', hc', hd', hn', hk'⟩
      · rw [if_pos hdom, if_neg hname]
        constructor
        · rintro (h | ⟨c', hc', h'⟩)
          · exact Or.inl h
          · exact Or.inr ⟨c', List.mem_cons_of_mem _ hc', h'⟩
        · rintro (h | ⟨c', hc', hd', hn', hk'⟩)
          · exact Or.inl h
          · rcases List.mem_cons.mp hc' with rfl | hc'
            · exact absurd hn' hname
            · exact Or.inr ⟨c', hc', hd', hn', hk'⟩
    · rw [if_neg hdom]
      constructor
      · rintro (h | ⟨c', hc', h'⟩)
        · exact Or.inl h
        · exact Or.inr ⟨c', List.mem_cons_of_mem _ hc', h'⟩
      · rintro (h | ⟨c', hc', hd', hn', hk'⟩)
        · exact Or.inl h
        · rcases List.mem_cons.mp hc' with rfl | hc'
          · exact absurd hd' hdom
          · exact Or.inr ⟨c', hc', hd', hn', hk'⟩

theorem chunksOf_flatten {α : Type} (c : Nat) (hc : 0 < c) :
    ∀ (n : Nat) (l : List α), l.length ≤ n → (chunksOf c l).flatten = l := by
  intro n
  induction n with
  | zero =>
    intro l hl
    have : l = [] := List.length_eq_zero.mp (Nat.le_antisymm hl (Nat.zero_le _))
    subst this
    simp [chunksOf]
  | succ n ih =>
    intro l hl
    match l with
    | [] => simp [chunksOf]
    | x :: t =>
      have hdrop : ((x :: t).drop c).length ≤ n := by
        rw [List.length_drop]
        simp only [List.length_cons] at hl ⊢
        omega
      rw [chunksOf, dif_neg (Nat.pos_iff_ne_zero.mp hc), List.flatten_cons,
        ih _ hdrop, List.take_append_drop]

/-! ## Claim theorems -/

/-- C3: `extract_id` returns a scalar as-is, recurses into the first element
of a non-empty sequence, and yields `none` otherwise; the nested inputs
`[[[["id-7"]]]]`, `[["id-7"]]` and `["id-7"]` all yield `"id-7"`, and `[]`
and `None` yield none. -/
theorem extract_id_spec :
    (∀ s : String, extract_id (.str s) = some s) ∧
    (∀ (x : RawReply) (xs : List RawReply), extract_id (.list (x :: xs)) = extract_id x) ∧
    extract_id (.list []) = none ∧
    extract_id .null = none ∧
    extract_id (.list [.list [.list [.list [.str "id-7"]]]]) = some "id-7" ∧
    extract_id (.list [.list [.str "id-7"]]) = some "id-7" ∧
    extract_id (.list [.str "id-7"]) = some "id-7" :=
  ⟨fun _ => rfl, fun _ _ => rfl, rfl, rfl, rfl, rfl, rfl⟩

/-- C6: the four YouTube URL variants (mobile host, short-link host, shorts
path on the www host, music host), none naming a local file, all classify as
a video reference with identifier `"abc123"`, identically to the canonical
host. -/
theorem classify_youtube_variants :
    classify false "https://m.youtube.com/watch?v=abc123"
      = .videoReference "https://m.youtube.com/watch?v=abc123" "abc123" ∧
    classify false "https://youtu.be/abc123"
      = .videoReference "https://youtu.be/abc123" "abc123" ∧
    classify false "https://www.youtube.com/shorts/abc123"
      = .videoReference "https://www.youtube.com/shorts/abc123" "abc123" ∧
    classify false "https://music.youtube.com/watch?v=abc123"
      = .videoReference "https://music.youtube.com/watch?v=abc123" "abc123" ∧
    classify false "https://youtube.com/watch?v=abc123"
      = .videoReference "https://youtube.com/watch?v=abc123" "abc123" := by
  refine ⟨?_, ?_, ?_, ?_, ?_⟩ <;> rfl

/-- C2: when registration yields a source id, negotiation yields a session
URL, and the transfer succeeds, `_add_file_source` performs exactly one
registration call, then one negotiation call, then one transfer call, in
that order with nothing retried; the transfer body is the file content in
64 KiB chunks, whose concatenation is the file (so its byte count is `N`)
for any positive chunk size; and the returned value is the source id from
the registration reply. -/
theorem add_file_source_roundtrip (env : SourcesEnv) (filename : String)
    (fileBytes : List Nat) (r : RawReply) (sid url : String)
    (hfile : env.fileReply = .ok r) (hsid : registerSourceId r = some sid)
    (hneg : env.negotiateResp = .ok (some url))
    (htr : env.transferResp = .ok ()) :
    _add_file_source env filename fileBytes =
      ([.rpcAddSourceFile filename,
        .httpNegotiate filename fileBytes.length sid,
        .httpTransfer (chunksOf CHUNK_SIZE fileBytes)], .ok sid) ∧
    (chunksOf CHUNK_SIZE fileBytes).flatten = fileBytes ∧
    ((chunksOf CHUNK_SIZE fileBytes).map List.length).sum = fileBytes.length ∧
    (∀ c, 0 < c → (chunksOf c fileBytes).flatten = fileBytes) := by
  have hflat : ∀ c, 0 < c → (chunksOf c fileBytes).flatten = fileBytes :=
    fun c hc => chunksOf_flatten c hc fileBytes.length fileBytes le_rfl
  have h64 : (chunksOf CHUNK_SIZE fileBytes).flatten = fileBytes :=
    hflat CHUNK_SIZE (by norm_num [CHUNK_SIZE])
  refine ⟨?_, h64, ?_, hflat⟩
  · simp [_add_file_source, _register_file_source, _start_resumable_upload,
      _upload_file_streaming, hfile, hsid, hneg, htr]
  · rw [← List.length_flatten, h64]

/-- Closed instance of `add_file_source_roundtrip`: the happy-path run on a
three-byte file. -/
theorem add_file_source_roundtrip_witness :
    _add_file_source envHappyUpload "doc.pdf" [10, 20, 30] =
      ([.rpcAddSourceFile "doc.pdf",
        .httpNegotiate "doc.pdf" 3 "src-42",
        .httpTransfer (chunksOf CHUNK_SIZE [10, 20, 30])], .ok "src-42") :=
  (add_file_source_roundtrip envHappyUpload "doc.pdf" [10, 20, 30]
    (.list [.list [.str "src-42"]]) "src-42" "https://upload.invalid/session-1"
    rfl rfl rfl rfl).1

/-- C4 counterexample: on a video-reference input whose remote add-source
call returns an *empty* reply list, `add` does not raise `SourceAddError` —
it succeeds with the placeholder `"youtube_source_added"`, refuting the
claim that an empty reply always raises. -/
theorem add_video_empty_reply_succeeds :
    (sourcesAdd envVideoEmptyReply false "https://youtu.be/abc123" []).2
      = .ok "youtube_source_added" := rfl

/-- C4 (amended): both non-file kinds issue exactly one remote add-source
call. On the generic-URL path, `SourceAddError` is raised exactly when the
reply is empty or not a sequence, and the call succeeds on a non-empty reply
sequence; an exception raised by the remote call itself propagates
unwrapped. On the video path the operation succeeds regardless of the reply
shape, and only a raised remote exception (again unwrapped) fails it. -/
theorem add_url_video_error_handling :
    (∀ (env : SourcesEnv) (source : String), _parse_youtube_url source = none →
      (sourcesAdd env false source []).1 = [.rpcAddSourceUrl source] ∧
      (∀ e, env.urlReply = .error e →
        (sourcesAdd env false source []).2 = .error (.remote e)) ∧
      (∀ reply, env.urlReply = .ok reply →
        ((sourcesAdd env false source []).2 = .ok "url_source_added"
            ↔ replyTruthyList reply = true) ∧
        (replyTruthyList reply = false →
          (sourcesAdd env false source []).2
            = .error (.sourceAddError source "Failed to add URL source")))) ∧
    (∀ (env : SourcesEnv) (source vid : String),
      _parse_youtube_url source = some vid →
      (sourcesAdd env false source []).1 = [.rpcAddSourceVideo source] ∧
      (∀ e, env.videoReply = .error e →
        (sourcesAdd env false source []).2 = .error (.remote e)) ∧
      (∀ reply, env.videoReply = .ok reply →
        (sourcesAdd env false source []).2 = .ok "youtube_source_added")) := by
  constructor
  · intro env source hparse
    refine ⟨by simp [sourcesAdd, hparse], ?_, ?_⟩
    · intro e he
      simp [sourcesAdd, hparse, he]
    · intro reply hr
      constructor
      · cases hrt : replyTruthyList reply <;>
          simp [sourcesAdd, hparse, hr, hrt]
      · intro hrt
        simp [sourcesAdd, hparse, hr, hrt]
  · intro env source vid hparse
    refine ⟨by simp [sourcesAdd, hparse], ?_, ?_⟩
    · intro e he
      simp [sourcesAdd, hparse, he]
    · intro reply hr
      simp [sourcesAdd, hparse, hr]

/-- Closed instance of `add_url_video_error_handling`: a generic URL whose
remote call answers with a non-empty list succeeds. -/
theorem add_url_video_error_handling_witness :
    (sourcesAdd envUrlOkReply false "https://example.com/page" []).2
      = .ok "url_source_added" :=
  (((add_url_video_error_handling.1 envUrlOkReply "https://example.com/page"
    rfl).2.2 (.list [.str "added"]) rfl).1).mpr rfl

/-- C5 counterexample: when the delete remote call raises, the failure
surfacing from `delete` is the unwrapped remote error, not the
`SourceDeleteError` the claim requires (no such error exists in the code). -/
theorem delete_remote_failure_not_wrapped :
    (sourcesDelete envDeleteFail "nb-1" "src-1").2
        = .error (.remote "rpc transport failure") ∧
    isSourceDeleteError (sourcesDelete envDeleteFail "nb-1" "src-1").2 = false :=
  ⟨rfl, rfl⟩

/-- C5 (amended): `delete` issues a single remote call with no retry; a
successful remote call yields success, and a remote failure propagates to
the caller as the underlying remote error, never as a `SourceDeleteError`. -/
theorem delete_single_call_no_wrap (env : SourcesEnv) (notebookId sourceId : String) :
    (sourcesDelete env notebookId sourceId).1
        = [.rpcDeleteSource notebookId sourceId] ∧
    (env.deleteReply = .ok () →
      (sourcesDelete env notebookId sourceId).2 = .ok ()) ∧
    (∀ e, env.deleteReply = .error e →
      (sourcesDelete env notebookId sourceId).2 = .error (.remote e)) ∧
    isSourceDeleteError (sourcesDelete env notebookId sourceId).2 = false := by
  refine ⟨rfl, ?_, ?_, ?_⟩
  · intro h; simp [sourcesDelete, h]
  · intro e h; simp [sourcesDelete, h]
  · cases h : env.deleteReply with
    | ok u => cases u; simp [sourcesDelete, isSourceDeleteError, h]
    | error e => simp [sourcesDelete, isSourceDeleteError, h]

/-- Closed instance of `delete_single_call_no_wrap`: a successful delete. -/
theorem delete_single_call_no_wrap_witness :
    (sourcesDelete baseEnv "nb-1" "src-1").2 = .ok () :=
  (delete_single_call_no_wrap baseEnv "nb-1" "src-1").2.1 rfl

/-- C1 counterexample: a storage file whose only cookie (named `SID`) sits on
the subdomain `lh3.google.com` — claimed to be always retained — loses that
cookie in `extract_cookies_from_storage`, whose filter is exact-match only,
so the function rejects the list for want of `SID`. -/
theorem extract_cookies_drops_google_subdomain :
    extract_cookies_from_storage [⟨"lh3.google.com", "SID", "x"⟩]
      = .error .missingCookie := rfl

/-- C1 (amended): the *download* filter `_is_allowed_cookie_domain` accepts
exactly the domains that equal an allow-list member or carry a dot-prefixed
allowed suffix (so `evil-google.com` is rejected while `lh3.google.com` and
`.google.com` are accepted), and `load_httpx_cookies` retains exactly the
entries passing it (with truthy name and value); `extract_cookies_from_storage`,
by contrast, retains exactly the entries whose domain is *exactly* in
`ALLOWED_COOKIE_DOMAINS`, so dot-qualified subdomains such as
`lh3.google.com` are not retained there. -/
theorem cookie_domain_filtering :
    _is_allowed_cookie_domain "evil-google.com" = false ∧
    _is_allowed_cookie_domain "lh3.google.com" = true ∧
    _is_allowed_cookie_domain ".google.com" = true ∧
    (∀ d : String, _is_allowed_cookie_domain d = true ↔
      (d ∈ ALLOWED_COOKIE_DOMAINS ∨
        ∃ suf ∈ ALLOWED_DOWNLOAD_SUFFIXES, ∃ p : String, d = p ++ suf)) ∧
    (∀ (L : List StorageCookie) (kept : List StorageCookie),
      load_httpx_cookies L = .ok kept →
      kept = L.filter fun c =>
        _is_allowed_cookie_domain c.domain && !(c.name == "") && !(c.value == "")) ∧
    (∀ (L : List StorageCookie) (cookies : List (String × String)),
      extract_cookies_from_storage L = .ok cookies →
      ∀ k, hasKey cookies k = true ↔
        ∃ c ∈ L, c.domain ∈ ALLOWED_COOKIE_DOMAINS ∧ c.name ≠ "" ∧ c.name = k) := by
  have empty_append : ∀ t : String, "" ++ t = t := fun ⟨_⟩ => rfl
  refine ⟨by decide, by decide, by decide, ?_, ?_, ?_⟩
  · intro d
    by_cases hmem : d ∈ ALLOWED_COOKIE_DOMAINS
    · simp [_is_allowed_cookie_domain, hmem]
    · rw [_is_allowed_cookie_domain, if_neg hmem]
      simp only [List.any_eq_true, Bool.or_eq_true, beq_iff_eq]
      constructor
      · rintro ⟨suf, hsuf, h | h⟩
        · exact Or.inr ⟨suf, hsuf, "", h.trans (empty_append suf).symm⟩
        · exact Or.inr ⟨suf, hsuf, (strEndsWith_iff d suf).mp h⟩
      · rintro (h | ⟨suf, hsuf, p, rfl⟩)
        · exact absurd h hmem
        · exact ⟨suf, hsuf, Or.inr ((strEndsWith_iff _ suf).mpr ⟨p, rfl⟩)⟩
  · intro L kept h
    rw [load_httpx_cookies] at h
    split at h
    · exact (Except.ok.inj h).symm
    · exact Except.noConfusion h
  · intro L cookies h k
    rw [extract_cookies_from_storage] at h
    split at h
    · rw [← Except.ok.inj h, hasKey_storageFold]
      simp [hasKey]
    · exact Except.noConfusion h

/-- Closed instance of `cookie_domain_filtering`: the download filter keeps
the `lh3.google.com` cookie and drops the `evil-google.com` one. -/
theorem cookie_domain_filtering_witness :
    ([⟨"lh3.google.com", "SID", "x"⟩] : List StorageCookie) =
      List.filter
        (fun c => _is_allowed_cookie_domain c.domain
          && !(c.name == "") && !(c.value == ""))
        [⟨"lh3.google.com", "SID", "x"⟩, ⟨"evil-google.com", "NID", "y"⟩] :=
  cookie_domain_filtering.2.2.2.2.1
    [⟨"lh3.google.com", "SID", "x"⟩, ⟨"evil-google.com", "NID", "y"⟩]
    [⟨"lh3.google.com", "SID", "x"⟩] rfl

/-- C9 counterexample: an `SID` cookie with the *empty* value on the allowed
domain `.google.com` — which the claim says must succeed — is dropped by
`load_httpx_cookies` (its filter requires a truthy value), so the load fails
with the missing-cookie error. -/
theorem load_httpx_empty_sid_fails :
    load_httpx_cookies [⟨".google.com", "SID", ""⟩] = .error .missingCookie := rfl

/-- C9 (amended): each of the two cookie loaders fails with the
missing-cookie error exactly when no `SID` cookie survives its own retention
filter, and succeeds exactly when one does. `extract_cookies_from_storage`
accepts an `SID` with any value (the empty string included) on an
exactly-allowed domain; `load_httpx_cookies` additionally requires the
`SID` value to be non-empty. -/
theorem sid_requirement :
    (∀ L : List StorageCookie,
      ((∃ cs, extract_cookies_from_storage L = .ok cs) ↔
        ∃ c ∈ L, c.domain ∈ ALLOWED_COOKIE_DOMAINS ∧ c.name = "SID") ∧
      (extract_cookies_from_storage L = .error .missingCookie ↔
        ¬ ∃ c ∈ L, c.domain ∈ ALLOWED_COOKIE_DOMAINS ∧ c.name = "SID")) ∧
    extract_cookies_from_storage [⟨".google.com", "SID", ""⟩] = .ok [("SID", "")] ∧
    (∀ L : List StorageCookie,
      ((∃ cs, load_httpx_cookies L = .ok cs) ↔
        ∃ c ∈ L, _is_allowed_cookie_domain c.domain = true ∧
          c.name = "SID" ∧ c.value ≠ "") ∧
      (load_httpx_cookies L = .error .missingCookie ↔
        ¬ ∃ c ∈ L, _is_allowed_cookie_domain c.domain = true ∧
          c.name = "SID" ∧ c.value ≠ "")) := by
  have hkey : ∀ L : List StorageCookie,
      (hasKey (L.foldl storageCookieStep []) "SID" = true ↔
        ∃ c ∈ L, c.domain ∈ ALLOWED_COOKIE_DOMAINS ∧ c.name = "SID") := by
    intro L
    rw [hasKey_storageFold]
    simp only [hasKey, List.any_nil, Bool.false_eq_true, false_or]
    constructor
    · rintro ⟨c, hc, hd, _, hn⟩
      exact ⟨c, hc, hd, hn⟩
    · rintro ⟨c, hc, hd, hn⟩
      exact ⟨c, hc, hd, by rw [hn]; decide, hn⟩
  have hany : ∀ L : List StorageCookie,
      ((L.filter fun c => _is_allowed_cookie_domain c.domain
            && !(c.name == "") && !(c.value == "")).any
          (fun c => c.name == "SID") = true ↔
        ∃ c ∈ L, _is_allowed_cookie_domain c.domain = true ∧
          c.name = "SID" ∧ c.value ≠ "") := by
    intro L
    simp only [List.any_eq_true, List.mem_filter, Bool.and_eq_true,
      Bool.not_eq_true', beq_iff_eq, beq_eq_false_iff_ne]
    constructor
    · rintro ⟨c, ⟨hc, ⟨hdom, _⟩, hval⟩, hname⟩
      exact ⟨c, hc, hdom, hname, hval⟩
    · rintro ⟨c, hc, hdom, hname, hval⟩
      exact ⟨c, ⟨hc, ⟨hdom, by rw [hname]; decide⟩, hval⟩, hname⟩
  refine ⟨?_, rfl, ?_⟩
  · intro L
    rw [extract_cookies_from_storage]
    by_cases h : hasKey (L.foldl storageCookieStep []) "SID" = true
    · simp only [h, if_true]
      constructor
      · exact ⟨fun _ => (hkey L).mp h, fun _ => ⟨_, rfl⟩⟩
      · constructor
        · intro hcs
          exact Except.noConfusion hcs
        · intro hnex
          exact absurd ((hkey L).mp h) hnex
    · simp only [h, if_false]
      constructor
      · constructor
        · rintro ⟨cs, hcs⟩
          exact Except.noConfusion hcs
        · intro hex
          exact absurd ((hkey L).mpr hex) h
      · constructor
        · intro _ hex
          exact absurd ((hkey L).mpr hex) h
        · exact fun _ => rfl
  · intro L
    rw [load_httpx_cookies]
    by_cases h : (L.filter fun c => _is_allowed_cookie_domain c.domain
        && !(c.name == "") && !(c.value == "")).any (fun c => c.name == "SID") = true
    · simp only [h, if_true]
      constructor
      · exact ⟨fun _ => (hany L).mp h, fun _ => ⟨_, rfl⟩⟩
      · constructor
        · rintro hcs
          exact Except.noConfusion hcs
        · intro hnex
          exact absurd ((hany L).mp h) hnex
    · simp only [h, if_false]
      constructor
      · constructor
        · rintro ⟨cs, hcs⟩
          exact Except.noConfusion hcs
        · intro hex
          exact absurd ((hany L).mpr hex) h
      · constructor
        · intro _ hex
          exact absurd ((hany L).mpr hex) h
        · exact fun _ => rfl

/-- Closed instance of `sid_requirement`: an empty-valued `SID` on an
exactly-allowed domain makes `extract_cookies_from_storage` succeed. -/
theorem sid_requirement_witness :
    extract_cookies_from_storage [⟨".google.com", "SID", ""⟩] = .ok [("SID", "")] :=
  sid_requirement.2.1

/-- Case analysis of `extract_token_from_html` when the token pattern is
absent from the HTML. -/
theorem extract_token_cases (key html finalUrl : String)
    (hnone : findToken key html = none) :
    (strContains html LOGIN_DOMAIN = true →
      extract_token_from_html key html finalUrl = .error .authExpired) ∧
    (extract_token_from_html key html finalUrl = .error .tokenExtraction ↔
      strContains finalUrl LOGIN_DOMAIN = false ∧
        strContains html LOGIN_DOMAIN = false) := by
  rw [extract_token_from_html, hnone]
  constructor
  · intro hh
    simp [hh]
  · by_cases hf : strContains finalUrl LOGIN_DOMAIN = true
    · simp [hf]
    · by_cases hh : strContains html LOGIN_DOMAIN = true
      · simp [hf, hh]
      · simp [hf, hh, Bool.not_eq_true] at *

/-- C8: when the landing-page fetch ends on a final URL containing the
external login domain `accounts.google.com`, `fetch_tokens` fails with the
auth-expired error (never the extraction error); and the extraction error
can only arise without such a redirect, when one of the two token patterns
is absent from the HTML. -/
theorem fetch_tokens_redirect_auth_expired :
    (∀ finalUrl html : String, strContains finalUrl LOGIN_DOMAIN = true →
      fetch_tokens finalUrl html = .error .authExpired) ∧
    (∀ finalUrl html : String,
      fetch_tokens finalUrl html = .error .tokenExtraction →
      strContains finalUrl LOGIN_DOMAIN = false ∧
        (findToken "SNlM0e" html = none ∨ findToken "FdrFJe" html = none)) := by
  constructor
  · intro finalUrl html h
    simp [fetch_tokens, h]
  · intro finalUrl html heq
    by_cases hu : strContains finalUrl LOGIN_DOMAIN = true
    · rw [fetch_tokens] at heq
      simp [hu] at heq
    · have hu' : strContains finalUrl LOGIN_DOMAIN = false := by
        simpa using hu
      refine ⟨hu', ?_⟩
      cases hc : findToken "SNlM0e" html with
      | none => exact Or.inl rfl
      | some tok =>
        cases hs : findToken "FdrFJe" html with
        | none => exact Or.inr rfl
        | some tok2 =>
          rw [fetch_tokens] at heq
          simp [hu', extract_csrf_from_html, extract_session_id_from_html,
            extract_token_from_html, hc, hs, bind, Except.bind, pure,
            Except.pure] at heq

/-- Closed instance of `fetch_tokens_redirect_auth_expired`: a fetch whose
final URL is on `accounts.google.com` fails with the auth-expired error. -/
theorem fetch_tokens_redirect_witness :
    fetch_tokens "https://accounts.google.com/ServiceLogin" "<html></html>"
      = .error .authExpired :=
  fetch_tokens_redirect_auth_expired.1
    "https://accounts.google.com/ServiceLogin" "<html></html>" rfl

/-- C10: when its token pattern is absent, each of the two extractors raises
the auth-expired error whenever `accounts.google.com` occurs anywhere in the
HTML body — even if the final URL is not the login domain — and raises the
page-structure-changed extraction error exactly when that substring occurs
in neither the final URL nor the body. -/
theorem extractor_login_substring_behaviour :
    (∀ html finalUrl : String, findToken "SNlM0e" html = none →
      (strContains html LOGIN_DOMAIN = true →
        extract_csrf_from_html html finalUrl = .error .authExpired) ∧
      (extract_csrf_from_html html finalUrl = .error .tokenExtraction ↔
        strContains finalUrl LOGIN_DOMAIN = false ∧
          strContains html LOGIN_DOMAIN = false)) ∧
    (∀ html finalUrl : String, findToken "FdrFJe" html = none →
      (strContains html LOGIN_DOMAIN = true →
        extract_session_id_from_html html finalUrl = .error .authExpired) ∧
      (extract_session_id_from_html html finalUrl = .error .tokenExtraction ↔
        strContains finalUrl LOGIN_DOMAIN = false ∧
          strContains html LOGIN_DOMAIN = false)) :=
  ⟨fun html finalUrl h => extract_token_cases "SNlM0e" html finalUrl h,
   fun html finalUrl h => extract_token_cases "FdrFJe" html finalUrl h⟩

/-- Closed instance of `extractor_login_substring_behaviour`: with the CSRF
pattern absent and `accounts.google.com` in the body only, the CSRF
extractor reports auth-expired although the final URL is the service's. -/
theorem extractor_login_substring_witness :
    extract_csrf_from_html "please sign in at accounts.google.com"
      "https://notebooklm.google.com/" = .error .authExpired :=
  (extractor_login_substring_behaviour.1 "please sign in at accounts.google.com"
    "https://notebooklm.google.com/" rfl).1 rfl

/-- The parser `_parse_youtube_url` only ever returns a validated identifier. -/
theorem parse_some_valid : ∀ {url vid : String},
    _parse_youtube_url url = some vid →
    vid ≠ "" ∧ _is_valid_video_id vid = true := by
  intro url vid h
  rw [_parse_youtube_url] at h
  split at h
  · split at h
    · split at h
      · next hcond =>
        injection h with hv
        subst hv
        exact hcond
      · exact Option.noConfusion h
    · exact Option.noConfusion h
  · exact Option.noConfusion h

/-- C7: classification of a non-file input never raises and always lands on
`GenericUrl` or a validated `VideoReference`; each rejection condition
(unknown host, no candidate identifier, invalid identifier) makes
`_parse_youtube_url` return `None` so classification falls through to
`GenericUrl` — in particular for `"https://youtube.com/watch?v="` (empty id)
and `"not a url at all"`. -/
theorem classify_fallthrough :
    (∀ raw : String, classify false raw = .genericUrl raw ∨
      ∃ vid, classify false raw = .videoReference raw vid ∧
        _is_valid_video_id vid = true) ∧
    (∀ raw : String, _parse_youtube_url raw = none →
      classify false raw = .genericUrl raw) ∧
    (∀ raw : String,
      pyLower (urlparseModel (pyStrip raw)).hostname ∉ YOUTUBE_DOMAINS →
      _parse_youtube_url raw = none) ∧
    (∀ raw : String,
      _extract_video_id_from_parsed_url (urlparseModel (pyStrip raw))
          (pyLower (urlparseModel (pyStrip raw)).hostname) = none →
      _parse_youtube_url raw = none) ∧
    (∀ (raw vid : String),
      _extract_video_id_from_parsed_url (urlparseModel (pyStrip raw))
          (pyLower (urlparseModel (pyStrip raw)).hostname) = some vid →
      _is_valid_video_id vid = false →
      _parse_youtube_url raw = none) ∧
    classify false "https://youtube.com/watch?v="
      = .genericUrl "https://youtube.com/watch?v=" ∧
    classify false "not a url at all" = .genericUrl "not a url at all" := by
  refine ⟨?_, ?_, ?_, ?_, ?_, rfl, rfl⟩
  · intro raw
    cases hp : _parse_youtube_url raw with
    | none => exact Or.inl (by simp [classify, hp])
    | some vid =>
      exact Or.inr ⟨vid, by simp [classify, hp], (parse_some_valid hp).2⟩
  · intro raw hp
    simp [classify, hp]
  · intro raw h
    simp only [_parse_youtube_url]
    rw [if_neg h]
  · intro raw h
    simp only [_parse_youtube_url]
    split
    · rw [h]
    · rfl
  · intro raw vid hex hval
    simp only [_parse_youtube_url]
    split
    · rw [hex]
      simp [hval]
    · rfl

/-- Closed instance of `classify_fallthrough`: an unparseable input falls
through to `GenericUrl`. -/
theorem classify_fallthrough_witness :
    classify false "not a url at all" = .genericUrl "not a url at all" :=
  classify_fallthrough.2.1 "not a url at all" rfl

end NotebookLM
